import Mathlib

/-
Verification of the friend/channel state machine and message-stream logic of
the ProChat client (src/app.jsx).

The Firestore document store is modelled shallowly: each collection is an
association list from document id to document, `setDoc` is keyed upsert,
`addDoc` appends a fresh-keyed entry, `updateDoc` on a request rewrites the
named field, and a filtered `getDocs`/`onSnapshot` query is a list filter.
`serverTimestamp()` values are modelled as natural-number seconds (the code
only ever reads `createdAt?.seconds` and orders by `timestamp`).
-/

namespace ProChat

/-- A `friendRequests` document (sendFriendRequest's addDoc payload). -/
structure FriendRequest where
  senderId : String
  senderUsername : String
  receiverId : String
  receiverUsername : String
  status : String
  createdAt : Nat
  deriving DecidableEq, Repr

/-- A document of a user's private `friends` collection. -/
structure FriendEdge where
  uid : String
  username : String
  deriving DecidableEq, Repr

/-- A stored message document of a group's `messages` subcollection.
`type` is optional: the welcome message written by `handleRequestAction`
carries no `type` field. -/
structure Message where
  senderId : String
  senderUsername : String
  content : String
  type : Option String
  timestamp : Nat
  deriving DecidableEq, Repr

/-- A `groups` document; `createdAt` is optional because the client treats a
missing timestamp as sort key 0. The nested `messages` subcollection is kept
inside the channel record. -/
structure Channel where
  name : String
  type : String
  members : List String
  ownerId : String
  createdAt : Option Nat
  messages : List Message
  deriving DecidableEq, Repr

/-- A toast notification (`setToastMessage` payload): message text and type
(`error`, `success` or `info`). -/
structure Toast where
  message : String
  type : String
  deriving DecidableEq, Repr

/-- A Firestore collection: document id paired with document data. -/
abbrev Collection (α : Type) := List (String × α)

/-- The slice of the document store the state machine touches: the public
`friendRequests` and `groups` collections and the per-user private `friends`
collections. -/
structure Store where
  friendRequests : Collection FriendRequest
  groups : Collection Channel
  friends : Collection (Collection FriendEdge)
  deriving DecidableEq, Repr

/-- Read a document by id. -/
def lookup {α : Type} : Collection α → String → Option α
  | [], _ => none
  | p :: rest, k => if p.1 = k then some p.2 else lookup rest k

/-- Firestore `setDoc`: overwrite the document at the given id, creating it
if absent. -/
def setDocIn {α : Type} : Collection α → String → α → Collection α
  | [], k, v => [(k, v)]
  | p :: rest, k, v => if p.1 = k then (k, v) :: rest else p :: setDocIn rest k v

/-- A user's private `friends` collection (empty when the user has none). -/
def friendsOf (fr : Collection (Collection FriendEdge)) (uid : String) :
    Collection FriendEdge :=
  (lookup fr uid).getD []

/-- `setDoc` on the document `docId` of user `uid`'s `friends` collection. -/
def setFriendDoc (fr : Collection (Collection FriendEdge)) (uid docId : String)
    (e : FriendEdge) : Collection (Collection FriendEdge) :=
  setDocIn fr uid (setDocIn (friendsOf fr uid) docId e)

/-- `updateDoc(requestDocRef, \x7b status: action \x7d)`: rewrite only the
status field of the request with the given id. -/
def updateRequestStatus (l : Collection FriendRequest) (id st : String) :
    Collection FriendRequest :=
  l.map (fun p => if p.1 = id then (p.1, { p.2 with status := st }) else p)

/-- `addDoc` into the `messages` subcollection of the group with id `gid`. -/
def addMessageToGroup (l : Collection Channel) (gid : String) (m : Message) :
    Collection Channel :=
  l.map (fun p =>
    if p.1 = gid then (p.1, { p.2 with messages := p.2.messages ++ [m] }) else p)

/-- The duplicate check of `sendFriendRequest`: a non-empty result for the
query `senderId == sender && receiverId == receiver && status == 'pending'`. -/
def hasPendingBetween (l : Collection FriendRequest) (sender receiver : String) :
    Bool :=
  l.any (fun p =>
    p.2.senderId == sender && p.2.receiverId == receiver && p.2.status == "pending")

/-- `sendFriendRequest(receiverId, receiverUsername)` (src/app.jsx lines
265-306), success path of the store write: check both directions for a
pending request; on a hit, write nothing and show an informational toast,
otherwise insert one new pending request under the fresh id `newId`. -/
def sendFriendRequest (s : Store)
    (currentUserId currentDisplayName receiverId receiverUsername newId : String)
    (now : Nat) : Store × Toast :=
  if hasPendingBetween s.friendRequests currentUserId receiverId then
    (s, ⟨"Request already sent to " ++ receiverUsername ++ ".", "info"⟩)
  else if hasPendingBetween s.friendRequests receiverId currentUserId then
    (s, ⟨receiverUsername ++
      " has already sent you a request. Check 'Pending Received Requests'.", "info"⟩)
  else
    ({ s with friendRequests := s.friendRequests ++
        [(newId, { senderId := currentUserId, senderUsername := currentDisplayName,
                   receiverId := receiverId, receiverUsername := receiverUsername,
                   status := "pending", createdAt := now })] },
     ⟨"Request sent to " ++ receiverUsername ++ "!", "success"⟩)

/-- The welcome message `handleRequestAction` appends to a fresh dm channel.
Note the payload has senderId 'SYSTEM' but no `type` field. -/
def welcomeMessage (currentDisplayName senderUsername : String) (now : Nat) :
    Message :=
  { senderId := "SYSTEM", senderUsername := "System",
    content := "DM chat created between " ++ currentDisplayName ++ " and " ++
      senderUsername ++ ". Say hello!",
    type := none, timestamp := now }

/-- `handleRequestAction(requestId, action, senderId, senderUsername)`
(src/app.jsx lines 308-349), success path: set the request's status to
`action`; when accepting, additionally write the two symmetric friend edges,
add one new dm channel under the fresh id `newGroupId`, and append the
welcome message to it. -/
def handleRequestAction (s : Store)
    (currentUserId currentDisplayName requestId action senderId senderUsername
      newGroupId : String) (now : Nat) : Store × Toast :=
  let s1 : Store :=
    { s with friendRequests := updateRequestStatus s.friendRequests requestId action }
  if action = "accepted" then
    let friends2 :=
      setFriendDoc
        (setFriendDoc s1.friends currentUserId senderId
          { uid := senderId, username := senderUsername })
        senderId currentUserId
        { uid := currentUserId, username := currentDisplayName }
    let s2 : Store := { s1 with friends := friends2 }
    let dm : Channel :=
      { name := currentDisplayName ++ " & " ++ senderUsername, type := "dm",
        members := [currentUserId, senderId], ownerId := currentUserId,
        createdAt := some now, messages := [] }
    let s3 : Store := { s2 with groups := s2.groups ++ [(newGroupId, dm)] }
    let groups4 :=
      addMessageToGroup s3.groups newGroupId
        (welcomeMessage currentDisplayName senderUsername now)
    let s4 : Store := { s3 with groups := groups4 }
    (s4, ⟨"Accepted friend request from " ++ senderUsername ++ ".", "success"⟩)
  else
    (s1, ⟨"Declined request from " ++ senderUsername ++ ".", "info"⟩)

/-- JavaScript `String.prototype.trim()`: strip leading and trailing
whitespace. -/
def jsTrim (s : String) : String :=
  ⟨((s.data.dropWhile Char.isWhitespace).reverse.dropWhile Char.isWhitespace).reverse⟩

/-- `handleCreateGroup` (src/app.jsx lines 772-794), success path of the
store write: reject an empty trimmed name before any write, otherwise add one
new group channel under the fresh id `newId` with the creator as owner and
sole member. -/
def handleCreateGroup (s : Store) (currentUserId newGroupName newId : String)
    (now : Nat) : Store × Toast :=
  if jsTrim newGroupName = "" then
    (s, ⟨"Group name cannot be empty.", "error"⟩)
  else
    ({ s with groups := s.groups ++
        [(newId, { name := jsTrim newGroupName, type := "group",
                   members := [currentUserId], ownerId := currentUserId,
                   createdAt := some now, messages := [] })] },
     ⟨"Group '" ++ jsTrim newGroupName ++ "' created!", "success"⟩)

/-- `handleSendMessage` (src/app.jsx lines 639-657). Returns the store, the
toast shown (if any), and the new `messageContent` input state. `writeOk`
models whether the `addDoc` store write succeeds; on failure nothing is
written, an error toast is shown and `setMessageContent` is never called. -/
def handleSendMessage (s : Store)
    (currentUserId currentUsername groupId messageContent : String) (now : Nat)
    (writeOk : Bool) : Store × Option Toast × String :=
  if jsTrim messageContent = "" ∨ groupId = "" then
    (s, none, messageContent)
  else if writeOk then
    let sent : Message :=
      { senderId := currentUserId, senderUsername := currentUsername,
        content := jsTrim messageContent, type := some "text", timestamp := now }
    ({ s with groups := addMessageToGroup s.groups groupId sent }, none, "")
  else
    (s, some ⟨"Failed to send message.", "error"⟩, messageContent)

/-- The client-side sort key of the groups subscription:
`a.createdAt?.seconds || 0`. -/
def groupSortKey (c : Channel) : Nat := c.createdAt.getD 0

/-- The groups subscription handler (src/app.jsx lines 1045-1055): the
fetched membership-filtered docs, sorted client-side descending by
`createdAt?.seconds || 0` (JavaScript `Array.prototype.sort` is stable;
`List.mergeSort` is the matching stable sort). -/
def deliverGroups (docs : Collection Channel) : Collection Channel :=
  docs.mergeSort (fun a b => decide (groupSortKey b.2 ≤ groupSortKey a.2))

/-- The messages query of the subscription effect (src/app.jsx lines
1071-1075): `orderBy('timestamp', 'asc'), limit(50)`, i.e. the first 50
documents of the log in ascending timestamp order. -/
def messagesWindow (msgs : List Message) : List Message :=
  (msgs.mergeSort (fun a b => decide (a.timestamp ≤ b.timestamp))).take 50

/-- A message as delivered to the UI by the messages subscription. -/
structure DeliveredMessage where
  senderId : String
  senderUsername : String
  content : String
  type : String
  timestamp : Nat
  deriving DecidableEq, Repr

/-- The snapshot mapping of the messages subscription (src/app.jsx line 1079):
`\x7b id: doc.id, type: doc.data().type || 'text', ...doc.data() \x7d`. The
spread re-overwrites `type` whenever the stored document has the field, so
the `'text'` default applies exactly when the field is absent. -/
def deliverMessage (m : Message) : DeliveredMessage :=
  { senderId := m.senderId, senderUsername := m.senderUsername,
    content := m.content, type := m.type.getD "text", timestamp := m.timestamp }

/-- The rendering branch of `MessageItem` (src/app.jsx line 601): a message
renders as an image iff its delivered type is `'gif'`, otherwise as text. -/
def rendersAsGif (d : DeliveredMessage) : Bool := d.type == "gif"

/-- The dm channel record built by `handleRequestAction` before the welcome
message is appended. -/
def dmChannelOf (currentDisplayName senderUsername currentUserId senderId : String)
    (now : Nat) : Channel :=
  { name := currentDisplayName ++ " & " ++ senderUsername, type := "dm",
    members := [currentUserId, senderId], ownerId := currentUserId,
    createdAt := some now, messages := [] }

/-! ### Lemmas about the store primitives -/

theorem lookup_setDocIn_self {α : Type} (l : Collection α) (k : String) (v : α) :
    lookup (setDocIn l k v) k = some v := by
  induction l with
  | nil => simp [setDocIn, lookup]
  | cons p rest ih =>
    by_cases h : p.1 = k
    · simp [setDocIn, h, lookup]
    · simp [setDocIn, h, lookup, ih]

theorem lookup_setDocIn_ne {α : Type} (l : Collection α) (k k' : String) (v : α)
    (h : k' ≠ k) : lookup (setDocIn l k v) k' = lookup l k' := by
  have hk : k ≠ k' := Ne.symm h
  induction l with
  | nil => simp [setDocIn, lookup, hk]
  | cons p rest ih =>
    by_cases hp : p.1 = k
    · simp [setDocIn, hp, lookup, hk]
    · by_cases hk2 : p.1 = k'
      · simp [setDocIn, hp, lookup, hk2, h]
      · simp [setDocIn, hp, lookup, hk2, ih]

theorem friendsOf_setFriendDoc_self (fr : Collection (Collection FriendEdge))
    (uid docId : String) (e : FriendEdge) :
    friendsOf (setFriendDoc fr uid docId e) uid = setDocIn (friendsOf fr uid) docId e := by
  simp [friendsOf, setFriendDoc, lookup_setDocIn_self]

theorem friendsOf_setFriendDoc_ne (fr : Collection (Collection FriendEdge))
    (uid uid' docId : String) (e : FriendEdge) (h : uid' ≠ uid) :
    friendsOf (setFriendDoc fr uid docId e) uid' = friendsOf fr uid' := by
  simp [friendsOf, setFriendDoc, lookup_setDocIn_ne _ _ _ _ h]

theorem lookup_updateRequestStatus_self (l : Collection FriendRequest)
    (id st : String) :
    lookup (updateRequestStatus l id st) id
      = (lookup l id).map (fun r => { r with status := st }) := by
  induction l with
  | nil => simp [updateRequestStatus, lookup]
  | cons p rest ih =>
    by_cases h : p.1 = id
    · simp [updateRequestStatus, lookup, h]
    · simp only [updateRequestStatus, List.map_cons, if_neg h, lookup] at ih ⊢
      simp [h, ih]

theorem lookup_updateRequestStatus_ne (l : Collection FriendRequest)
    (id st k : String) (h : k ≠ id) :
    lookup (updateRequestStatus l id st) k = lookup l k := by
  induction l with
  | nil => simp [updateRequestStatus, lookup]
  | cons p rest ih =>
    by_cases hp : p.1 = id
    · have hpk : p.1 ≠ k := fun hk => h (hk.symm.trans hp)
      simp only [updateRequestStatus, List.map_cons, if_pos hp, lookup] at ih ⊢
      simp [hpk, hp, Ne.symm h, ih]
    · simp only [updateRequestStatus, List.map_cons, if_neg hp, lookup] at ih ⊢
      by_cases hk : p.1 = k
      · simp [hk]
      · simp [hk, ih]

theorem addMessageToGroup_append_fresh (l : Collection Channel) (gid : String)
    (c : Channel) (m : Message) (h : ∀ p ∈ l, p.1 ≠ gid) :
    addMessageToGroup (l ++ [(gid, c)]) gid m
      = l ++ [(gid, { c with messages := c.messages ++ [m] })] := by
  induction l with
  | nil => simp [addMessageToGroup]
  | cons p rest ih =>
    have hp : p.1 ≠ gid := h p (by simp)
    have ih' := ih (fun q hq => h q (by simp [hq]))
    simp only [addMessageToGroup, List.cons_append, List.map_cons, if_neg hp] at ih' ⊢
    simp [ih']

theorem lookup_append_fresh {α : Type} (l : Collection α) (k : String) (v : α)
    (h : ∀ p ∈ l, p.1 ≠ k) : lookup (l ++ [(k, v)]) k = some v := by
  induction l with
  | nil => simp [lookup]
  | cons p rest ih =>
    have hp : p.1 ≠ k := h p (by simp)
    have ih' := ih (fun q hq => h q (by simp [hq]))
    simp [lookup, hp, ih']

/-- The result of the accept action in closed form: request status rewritten,
both symmetric friend edges written, and the groups collection extended by
exactly one dm channel holding exactly the welcome message. -/
theorem handleRequestAction_accept_eq (s : Store)
    (currentUserId currentDisplayName requestId senderId senderUsername
      newGroupId : String) (now : Nat)
    (hfresh : ∀ p ∈ s.groups, p.1 ≠ newGroupId) :
    (handleRequestAction s currentUserId currentDisplayName requestId "accepted"
        senderId senderUsername newGroupId now).1
      = ⟨updateRequestStatus s.friendRequests requestId "accepted",
         s.groups ++
           [(newGroupId,
             { dmChannelOf currentDisplayName senderUsername currentUserId senderId now
                 with messages :=
                   [welcomeMessage currentDisplayName senderUsername now] })],
         setFriendDoc
           (setFriendDoc s.friends currentUserId senderId
             ⟨senderId, senderUsername⟩)
           senderId currentUserId ⟨currentUserId, currentDisplayName⟩⟩ := by
  have h := addMessageToGroup_append_fresh s.groups newGroupId
    (dmChannelOf currentDisplayName senderUsername currentUserId senderId now)
    (welcomeMessage currentDisplayName senderUsername now) hfresh
  simp only [dmChannelOf, List.nil_append] at h
  simp [handleRequestAction, dmChannelOf, h]

/-! ### Sample stores for concrete instantiations -/

/-- A store with no documents at all. -/
def emptyStore : Store := ⟨[], [], []⟩

/-- A store holding one pending request from u1 (Alpha) to u2 (Beta). -/
def sampleStore : Store :=
  ⟨[("req1", ⟨"u1", "Alpha", "u2", "Beta", "pending", 3⟩)], [], []⟩

/-! ### Claims -/

/-- C1: accepting a friend request marks that request `accepted`, writes
exactly the two symmetric FriendEdge records (one under each participant's
private friends collection, each naming the other participant), and appends
exactly one new `dm` Channel whose members are exactly the two
participants. -/
theorem accept_marks_request_and_creates_edges_and_dm (s : Store)
    (U dU rid S sS gid : String) (now : Nat) (r : FriendRequest)
    (hne : U ≠ S)
    (hfresh : ∀ p ∈ s.groups, p.1 ≠ gid)
    (hreq : lookup s.friendRequests rid = some r) :
    lookup ((handleRequestAction s U dU rid "accepted" S sS gid now).1).friendRequests rid
        = some { r with status := "accepted" }
    ∧ lookup (friendsOf ((handleRequestAction s U dU rid "accepted" S sS gid now).1).friends U) S
        = some ⟨S, sS⟩
    ∧ lookup (friendsOf ((handleRequestAction s U dU rid "accepted" S sS gid now).1).friends S) U
        = some ⟨U, dU⟩
    ∧ (∀ u, u ≠ U → u ≠ S →
        friendsOf ((handleRequestAction s U dU rid "accepted" S sS gid now).1).friends u
          = friendsOf s.friends u)
    ∧ (∀ d, d ≠ S →
        lookup (friendsOf ((handleRequestAction s U dU rid "accepted" S sS gid now).1).friends U) d
          = lookup (friendsOf s.friends U) d)
    ∧ (∀ d, d ≠ U →
        lookup (friendsOf ((handleRequestAction s U dU rid "accepted" S sS gid now).1).friends S) d
          = lookup (friendsOf s.friends S) d)
    ∧ (∃ c : Channel,
        ((handleRequestAction s U dU rid "accepted" S sS gid now).1).groups
            = s.groups ++ [(gid, c)]
        ∧ c.type = "dm" ∧ c.members = [U, S]
        ∧ ∀ x, x ∈ c.members ↔ (x = U ∨ x = S)) := by
  rw [handleRequestAction_accept_eq s U dU rid S sS gid now hfresh]
  refine ⟨?_, ?_, ?_, ?_, ?_, ?_, ?_⟩
  · rw [lookup_updateRequestStatus_self, hreq]
    rfl
  · rw [friendsOf_setFriendDoc_ne _ _ _ _ _ hne, friendsOf_setFriendDoc_self,
      lookup_setDocIn_self]
  · rw [friendsOf_setFriendDoc_self, lookup_setDocIn_self]
  · intro u hU hS
    rw [friendsOf_setFriendDoc_ne _ _ _ _ _ hS, friendsOf_setFriendDoc_ne _ _ _ _ _ hU]
  · intro d hd
    rw [friendsOf_setFriendDoc_ne _ _ _ _ _ hne, friendsOf_setFriendDoc_self,
      lookup_setDocIn_ne _ _ _ _ hd]
  · intro d hd
    rw [friendsOf_setFriendDoc_self, lookup_setDocIn_ne _ _ _ _ hd,
      friendsOf_setFriendDoc_ne _ _ _ _ _ (Ne.symm hne)]
  · exact ⟨_, rfl, rfl, rfl, fun x => by simp [dmChannelOf]⟩

/-- Witness for C1: u2 (Beta) accepts u1's (Alpha's) pending request in
`sampleStore`; the hypotheses hold and the accepted status is observable. -/
theorem accept_marks_request_and_creates_edges_and_dm_witness :
    (("u2" : String) ≠ "u1")
    ∧ (∀ p ∈ sampleStore.groups, p.1 ≠ "g1")
    ∧ lookup sampleStore.friendRequests "req1"
        = some ⟨"u1", "Alpha", "u2", "Beta", "pending", 3⟩
    ∧ lookup ((handleRequestAction sampleStore "u2" "Beta" "req1" "accepted" "u1"
          "Alpha" "g1" 7).1).friendRequests "req1"
        = some ⟨"u1", "Alpha", "u2", "Beta", "accepted", 3⟩ :=
  ⟨by decide, by simp [sampleStore], by decide,
   (accept_marks_request_and_creates_edges_and_dm sampleStore "u2" "Beta" "req1"
      "u1" "Alpha" "g1" 7 ⟨"u1", "Alpha", "u2", "Beta", "pending", 3⟩
      (by decide) (by simp [sampleStore]) (by decide)).1⟩

/-- C3 counterexample: accepting u1's request in `sampleStore` creates the dm
channel `g1` holding exactly one message, but that message's stored `type`
field is not `'system'` (the addDoc payload carries no `type` field at
all). -/
theorem dm_welcome_message_not_system_typed :
    ((lookup ((handleRequestAction sampleStore "u2" "Beta" "req1" "accepted" "u1"
          "Alpha" "g1" 7).1).groups "g1").map Channel.messages
        = some [welcomeMessage "Beta" "Alpha" 7])
    ∧ ¬ ((welcomeMessage "Beta" "Alpha" 7).type = some "system") := by
  decide

/-- C3 (amended): the dm channel created by an acceptance contains exactly
one welcome message; it is marked by `senderId = 'SYSTEM'` but carries no
`type` field, so the messages subscription classifies it as `'text'`. -/
theorem dm_contains_exactly_one_untyped_welcome_message (s : Store)
    (U dU rid S sS gid : String) (now : Nat)
    (hfresh : ∀ p ∈ s.groups, p.1 ≠ gid) :
    (lookup ((handleRequestAction s U dU rid "accepted" S sS gid now).1).groups gid).map
        Channel.messages = some [welcomeMessage dU sS now]
    ∧ (welcomeMessage dU sS now).senderId = "SYSTEM"
    ∧ (welcomeMessage dU sS now).type = none
    ∧ (deliverMessage (welcomeMessage dU sS now)).type = "text" := by
  rw [handleRequestAction_accept_eq s U dU rid S sS gid now hfresh]
  exact ⟨by rw [lookup_append_fresh _ _ _ hfresh]; rfl, rfl, rfl, rfl⟩

/-- Witness for the amended C3, at the concrete acceptance in
`sampleStore`. -/
theorem dm_contains_exactly_one_untyped_welcome_message_witness :
    (∀ p ∈ sampleStore.groups, p.1 ≠ "g1")
    ∧ ((lookup ((handleRequestAction sampleStore "u2" "Beta" "req1" "accepted" "u1"
          "Alpha" "g1" 7).1).groups "g1").map Channel.messages
        = some [welcomeMessage "Beta" "Alpha" 7]) :=
  ⟨by simp [sampleStore],
   (dm_contains_exactly_one_untyped_welcome_message sampleStore "u2" "Beta" "req1"
      "u1" "Alpha" "g1" 7 (by simp [sampleStore])).1⟩

/-- C5: declining a request rewrites only that request's status field, to
`'declined'`: no friend edge and no channel is created, and every other
stored record is untouched. -/
theorem decline_changes_only_request_status (s : Store)
    (U dU rid S sS gid : String) (now : Nat) :
    ((handleRequestAction s U dU rid "declined" S sS gid now).1).groups = s.groups
    ∧ ((handleRequestAction s U dU rid "declined" S sS gid now).1).friends = s.friends
    ∧ (∀ k, k ≠ rid →
        lookup ((handleRequestAction s U dU rid "declined" S sS gid now).1).friendRequests k
          = lookup s.friendRequests k)
    ∧ (∀ r, lookup s.friendRequests rid = some r →
        lookup ((handleRequestAction s U dU rid "declined" S sS gid now).1).friendRequests rid
          = some { r with status := "declined" }) := by
  have hne : ¬ (("declined" : String) = "accepted") := by decide
  refine ⟨?_, ?_, ?_, ?_⟩
  · simp [handleRequestAction, hne]
  · simp [handleRequestAction, hne]
  · intro k hk
    simp only [handleRequestAction, if_neg hne]
    exact lookup_updateRequestStatus_ne _ _ _ _ hk
  · intro r hr
    simp only [handleRequestAction, if_neg hne]
    rw [lookup_updateRequestStatus_self, hr]
    rfl

/-- Witness for C5: u2 declines u1's pending request in `sampleStore`; no
channel or edge appears, an unrelated id is untouched, and the request's
status becomes `'declined'` with all other fields intact. -/
theorem decline_changes_only_request_status_witness :
    ((handleRequestAction sampleStore "u2" "Beta" "req1" "declined" "u1" "Alpha"
        "g1" 7).1).groups = sampleStore.groups
    ∧ ((handleRequestAction sampleStore "u2" "Beta" "req1" "declined" "u1" "Alpha"
        "g1" 7).1).friends = sampleStore.friends
    ∧ (("zzz" : String) ≠ "req1")
    ∧ lookup ((handleRequestAction sampleStore "u2" "Beta" "req1" "declined" "u1"
        "Alpha" "g1" 7).1).friendRequests "zzz" = lookup sampleStore.friendRequests "zzz"
    ∧ lookup sampleStore.friendRequests "req1"
        = some ⟨"u1", "Alpha", "u2", "Beta", "pending", 3⟩
    ∧ lookup ((handleRequestAction sampleStore "u2" "Beta" "req1" "declined" "u1"
        "Alpha" "g1" 7).1).friendRequests "req1"
        = some ⟨"u1", "Alpha", "u2", "Beta", "declined", 3⟩ :=
  have h := decline_changes_only_request_status sampleStore "u2" "Beta" "req1" "u1"
    "Alpha" "g1" 7
  ⟨h.1, h.2.1, by decide, h.2.2.1 "zzz" (by decide), by decide,
   h.2.2.2 ⟨"u1", "Alpha", "u2", "Beta", "pending", 3⟩ (by decide)⟩

/-- C4: sending a friend request no-ops with an informational notice when a
pending request already exists in either direction (for the sent direction
the notice reads `Request already sent to <receiverUsername>.`), and inserts
exactly one new pending request only when neither direction has one. -/
theorem send_request_dedup (s : Store) (A dA B uB nid : String) (now : Nat) :
    (hasPendingBetween s.friendRequests A B = true →
      (sendFriendRequest s A dA B uB nid now).1 = s
      ∧ (sendFriendRequest s A dA B uB nid now).2
          = ⟨"Request already sent to " ++ uB ++ ".", "info"⟩)
    ∧ (hasPendingBetween s.friendRequests A B = false →
       hasPendingBetween s.friendRequests B A = true →
      (sendFriendRequest s A dA B uB nid now).1 = s
      ∧ (sendFriendRequest s A dA B uB nid now).2.type = "info")
    ∧ (hasPendingBetween s.friendRequests A B = false →
       hasPendingBetween s.friendRequests B A = false →
      (sendFriendRequest s A dA B uB nid now).1.friendRequests
          = s.friendRequests ++ [(nid, ⟨A, dA, B, uB, "pending", now⟩)]
      ∧ (sendFriendRequest s A dA B uB nid now).1.groups = s.groups
      ∧ (sendFriendRequest s A dA B uB nid now).1.friends = s.friends) := by
  refine ⟨fun h1 => ?_, fun h1 h2 => ?_, fun h1 h2 => ?_⟩
  · simp [sendFriendRequest, h1]
  · simp [sendFriendRequest, h1, h2]
  · simp [sendFriendRequest, h1, h2]

/-- Witness for C4: in `sampleStore` (pending u1→u2) a resend by u1 no-ops
with the exact notice, a crossing send by u2 no-ops with an info notice, and
in the empty store one pending request is inserted. -/
theorem send_request_dedup_witness :
    (hasPendingBetween sampleStore.friendRequests "u1" "u2" = true)
    ∧ ((sendFriendRequest sampleStore "u1" "Alpha" "u2" "Beta" "n1" 9).1 = sampleStore
       ∧ (sendFriendRequest sampleStore "u1" "Alpha" "u2" "Beta" "n1" 9).2
           = ⟨"Request already sent to " ++ "Beta" ++ ".", "info"⟩)
    ∧ (hasPendingBetween sampleStore.friendRequests "u2" "u1" = false)
    ∧ ((sendFriendRequest sampleStore "u2" "Beta" "u1" "Alpha" "n1" 9).1 = sampleStore
       ∧ (sendFriendRequest sampleStore "u2" "Beta" "u1" "Alpha" "n1" 9).2.type = "info")
    ∧ (hasPendingBetween emptyStore.friendRequests "u1" "u2" = false)
    ∧ ((sendFriendRequest emptyStore "u1" "Alpha" "u2" "Beta" "n1" 9).1.friendRequests
        = emptyStore.friendRequests ++ [("n1", ⟨"u1", "Alpha", "u2", "Beta", "pending", 9⟩)]
       ∧ (sendFriendRequest emptyStore "u1" "Alpha" "u2" "Beta" "n1" 9).1.groups
           = emptyStore.groups
       ∧ (sendFriendRequest emptyStore "u1" "Alpha" "u2" "Beta" "n1" 9).1.friends
           = emptyStore.friends) :=
  ⟨by decide,
   (send_request_dedup sampleStore "u1" "Alpha" "u2" "Beta" "n1" 9).1 (by decide),
   by decide,
   (send_request_dedup sampleStore "u2" "Beta" "u1" "Alpha" "n1" 9).2.1 (by decide)
     (by decide),
   by decide,
   (send_request_dedup emptyStore "u1" "Alpha" "u2" "Beta" "n1" 9).2.2 (by decide)
     (by decide)⟩

/-- C7: creating a group with an empty or whitespace-only name is rejected
before any store write with the notice `Group name cannot be empty.`;
otherwise exactly one new `group` channel is added, with the creator as its
owner and sole member. -/
theorem create_group_validates_and_inserts (s : Store) (uid name nid : String)
    (now : Nat) :
    (jsTrim name = "" →
      handleCreateGroup s uid name nid now
        = (s, ⟨"Group name cannot be empty.", "error"⟩))
    ∧ (jsTrim name ≠ "" →
      (handleCreateGroup s uid name nid now).1.groups
          = s.groups ++ [(nid, ⟨jsTrim name, "group", [uid], uid, some now, []⟩)]
      ∧ (handleCreateGroup s uid name nid now).1.friendRequests = s.friendRequests
      ∧ (handleCreateGroup s uid name nid now).1.friends = s.friends) := by
  constructor
  · intro h
    simp [handleCreateGroup, h]
  · intro h
    simp [handleCreateGroup, h]

/-- Witness for C7: the whitespace-only name `"   "` is rejected with the
exact notice and no write, and `" My Group "` creates one group channel with
trimmed name, owner u1 and members `[u1]`. -/
theorem create_group_validates_and_inserts_witness :
    (jsTrim "   " = "")
    ∧ handleCreateGroup emptyStore "u1" "   " "n1" 9
        = (emptyStore, ⟨"Group name cannot be empty.", "error"⟩)
    ∧ (jsTrim " My Group " ≠ "")
    ∧ ((handleCreateGroup emptyStore "u1" " My Group " "n1" 9).1.groups
        = emptyStore.groups
            ++ [("n1", ⟨jsTrim " My Group ", "group", ["u1"], "u1", some 9, []⟩)]
       ∧ (handleCreateGroup emptyStore "u1" " My Group " "n1" 9).1.friendRequests
           = emptyStore.friendRequests
       ∧ (handleCreateGroup emptyStore "u1" " My Group " "n1" 9).1.friends
           = emptyStore.friends) :=
  ⟨by decide,
   (create_group_validates_and_inserts emptyStore "u1" "   " "n1" 9).1 (by decide),
   by decide,
   (create_group_validates_and_inserts emptyStore "u1" " My Group " "n1" 9).2
     (by decide)⟩

/-- C8: a text send whose composed content is empty or whitespace-only is a
no-op: the store is untouched, no toast is shown, and the input state is
unchanged. -/
theorem send_whitespace_message_is_noop (s : Store)
    (uid uname gid content : String) (now : Nat) (writeOk : Bool)
    (h : jsTrim content = "") :
    handleSendMessage s uid uname gid content now writeOk = (s, none, content) := by
  simp [handleSendMessage, h]

/-- Witness for C8: sending `"   "` into channel g1 writes nothing and shows
nothing. -/
theorem send_whitespace_message_is_noop_witness :
    (jsTrim "   " = "")
    ∧ handleSendMessage emptyStore "u1" "Alpha" "g1" "   " 9 true
        = (emptyStore, none, "   ") :=
  ⟨by decide,
   send_whitespace_message_is_noop emptyStore "u1" "Alpha" "g1" "   " 9 true
     (by decide)⟩

/-- C9: when the store write of a text send fails, an error toast is shown
and the composed content is retained in the input state; the input is
cleared exactly when the write succeeds. -/
theorem send_failure_keeps_input (s : Store) (uid uname gid content : String)
    (now : Nat) (h1 : jsTrim content ≠ "") (h2 : gid ≠ "") :
    (handleSendMessage s uid uname gid content now false
        = (s, some ⟨"Failed to send message.", "error"⟩, content))
    ∧ (handleSendMessage s uid uname gid content now true).2.2 = "" := by
  constructor
  · simp [handleSendMessage, h1, h2]
  · simp [handleSendMessage, h1, h2]

/-- Witness for C9: a failed send of `"hi"` keeps `"hi"` in the input and
shows the error toast; a successful send clears the input. -/
theorem send_failure_keeps_input_witness :
    (jsTrim "hi" ≠ "")
    ∧ (("g1" : String) ≠ "")
    ∧ (handleSendMessage emptyStore "u1" "Alpha" "g1" "hi" 9 false
        = (emptyStore, some ⟨"Failed to send message.", "error"⟩, "hi"))
    ∧ (handleSendMessage emptyStore "u1" "Alpha" "g1" "hi" 9 true).2.2 = "" :=
  have h := send_failure_keeps_input emptyStore "u1" "Alpha" "g1" "hi" 9
    (by decide) (by decide)
  ⟨by decide, by decide, h.1, h.2⟩

/-- C10: the messages subscription delivers every message with a type:
stored `type` values pass through unchanged, and a stored message lacking
the field is delivered as `'text'` and therefore never rendered through the
gif branch. -/
theorem delivered_type_defaults_to_text (m : Message) :
    (m.type = none →
      (deliverMessage m).type = "text"
      ∧ rendersAsGif (deliverMessage m) = false)
    ∧ (∀ t, m.type = some t → (deliverMessage m).type = t) := by
  constructor
  · intro h
    constructor
    · simp [deliverMessage, h]
    · simp [deliverMessage, rendersAsGif, h]
  · intro t h
    simp [deliverMessage, h]

/-- Witness for C10: the stored welcome message has no type field and is
delivered as `'text'`; a stored gif message keeps its type. -/
theorem delivered_type_defaults_to_text_witness :
    ((welcomeMessage "Beta" "Alpha" 7).type = none)
    ∧ (deliverMessage (welcomeMessage "Beta" "Alpha" 7)).type = "text"
    ∧ rendersAsGif (deliverMessage (welcomeMessage "Beta" "Alpha" 7)) = false
    ∧ ((⟨"u1", "Alpha", "url", some "gif", 9⟩ : Message).type = some "gif")
    ∧ (deliverMessage ⟨"u1", "Alpha", "url", some "gif", 9⟩).type = "gif" :=
  have h1 := (delivered_type_defaults_to_text (welcomeMessage "Beta" "Alpha" 7)).1 rfl
  have h2 := (delivered_type_defaults_to_text ⟨"u1", "Alpha", "url", some "gif", 9⟩).2
    "gif" rfl
  ⟨rfl, h1.1, h1.2, rfl, h2⟩

/-- C6: the delivered channel list is a permutation of the fetched
membership-filtered records, ordered descending by the key
`createdAt?.seconds || 0`, where a record with no creation timestamp gets
key 0. -/
theorem delivered_groups_sorted_descending (docs : Collection Channel) :
    (deliverGroups docs).Perm docs
    ∧ List.Pairwise (fun a b => groupSortKey b.2 ≤ groupSortKey a.2) (deliverGroups docs)
    ∧ (∀ c : Channel, c.createdAt = none → groupSortKey c = 0) := by
  refine ⟨List.mergeSort_perm docs _, ?_, ?_⟩
  · have h : List.Pairwise
        (fun a b : String × Channel =>
          decide (groupSortKey b.2 ≤ groupSortKey a.2) = true)
        (deliverGroups docs) :=
      List.sorted_mergeSort
        (fun a b c h1 h2 => by
          simp only [decide_eq_true_eq] at h1 h2 ⊢
          omega)
        (fun a b => by
          simp only [Bool.or_eq_true, decide_eq_true_eq]
          omega)
        docs
    exact h.imp (fun hab => by simpa using hab)
  · intro c hc
    simp [groupSortKey, hc]

/-- A `group` channel created at time 5. -/
def chanA : Channel := ⟨"A", "group", ["u1"], "u1", some 5, []⟩

/-- A channel record with no `createdAt` timestamp. -/
def chanB : Channel := ⟨"B", "group", ["u1"], "u1", none, []⟩

/-- A `dm` channel created at time 9. -/
def chanC : Channel := ⟨"C", "dm", ["u1", "u2"], "u1", some 9, []⟩

/-- Witness for C6: a three-channel snapshot (one without a timestamp) is
delivered as a descending-by-key permutation, and the timestampless record
sorts with key 0. -/
theorem delivered_groups_sorted_descending_witness :
    (deliverGroups [("a", chanA), ("b", chanB), ("c", chanC)]).Perm
        [("a", chanA), ("b", chanB), ("c", chanC)]
    ∧ List.Pairwise (fun a b => groupSortKey b.2 ≤ groupSortKey a.2)
        (deliverGroups [("a", chanA), ("b", chanB), ("c", chanC)])
    ∧ (chanB.createdAt = none)
    ∧ groupSortKey chanB = 0 :=
  have h := delivered_groups_sorted_descending [("a", chanA), ("b", chanB), ("c", chanC)]
  ⟨h.1, h.2.1, rfl, h.2.2 chanB rfl⟩

/-- A text message from u1 with the given timestamp. -/
def msgAt (i : Nat) : Message := ⟨"u1", "Alpha", "hello", some "text", i⟩

/-- A channel log of 51 messages with timestamps 0..50. -/
def channelLog51 : List Message := (List.range 51).map msgAt

/-- C2 (code-bug evidence): on a channel holding 51 messages with timestamps
0..50, the subscription window `orderBy('timestamp','asc'), limit(50)`
delivers the 50 oldest messages and drops the most recent one, contradicting
the claimed `most recent 50` window (and the code's own comment `Limit to
last 50 messages`). The window is ascending, but it is the prefix, not the
suffix, of the log. -/
theorem messages_window_keeps_oldest_drops_latest :
    messagesWindow channelLog51 = (List.range 50).map msgAt
    ∧ msgAt 50 ∈ channelLog51
    ∧ msgAt 50 ∉ messagesWindow channelLog51 := by
  have hs : channelLog51.mergeSort (fun a b => decide (a.timestamp ≤ b.timestamp))
      = channelLog51 :=
    List.mergeSort_of_sorted (by decide)
  refine ⟨?_, by decide, ?_⟩
  · simp only [messagesWindow]
    rw [hs]
    decide
  · simp only [messagesWindow]
    rw [hs]
    decide

end ProChat
